import Mathlib

/-
Verification of the Barcam capture-and-persist pipeline.

The Python sources (src/BarCam.py, with src/Barcam.py and
src/Backup-barcam.py as earlier variants) are shallowly embedded:
Python strings become lists of characters, the mutable `BarcodeApp`
object becomes an explicit `Session` record threaded through pure
functions, the filesystem becomes an explicit finite map, and calls
into external libraries (OpenCV, pyserial, the tone player) become
boolean oracles in an `Env` record plus an event trace.  Exceptions
that the Python code catches are modelled by the corresponding
fallback branch; exceptions that cannot escape are not modelled.
-/

namespace Barcam

/-- Python strings are modelled as lists of characters. -/
abbrev PyStr := List Char

/-- Conversion from a Lean string literal to the Python-string model. -/
def pstr (s : String) : PyStr := s.toList

/-- Python's `str.split(sep)` for a one-character separator: splits at every
occurrence of `sep`, keeping empty chunks, so `"a-".split('-') == ["a",""]`
and `"".split('-') == [""]`.  The result is never the empty list. -/
def pySplitChar (sep : Char) : PyStr → List PyStr
  | [] => [[]]
  | c :: rest =>
    if c = sep then [] :: pySplitChar sep rest
    else
      match pySplitChar sep rest with
      | [] => [[c]]
      | t :: ts => (c :: t) :: ts

/-- Accumulator worker for `pySplitWs`: `cur` holds the reversed current
token. -/
def splitWsAux : PyStr → PyStr → List PyStr
  | [], cur => if cur = [] then [] else [cur.reverse]
  | c :: rest, cur =>
    if c.isWhitespace then
      if cur = [] then splitWsAux rest [] else cur.reverse :: splitWsAux rest []
    else splitWsAux rest (c :: cur)

/-- Python's `str.split()` with no argument: the maximal runs of
non-whitespace characters; leading, trailing and repeated whitespace is
discarded (an all-whitespace string yields the empty list). -/
def pySplitWs (s : PyStr) : List PyStr := splitWsAux s []

/-- Python's `str.strip()`: remove leading and trailing whitespace. -/
def pyStrip (s : PyStr) : PyStr :=
  ((s.dropWhile Char.isWhitespace).reverse.dropWhile Char.isWhitespace).reverse

/-- `BarcodeApp.extract_sku` (src/BarCam.py lines 512-516):
`return barcode_value.split()[0].split('-')[0]`, with any exception (an
`IndexError` exactly when `split()` returns no tokens) caught and the raw
argument returned verbatim. -/
def extract_sku (barcode_value : PyStr) : PyStr :=
  match pySplitWs barcode_value with
  | [] => barcode_value
  | tok :: _ =>
    match pySplitChar '-' tok with
    | [] => barcode_value
    | part :: _ => part

/-- Modelled from the spec (section 4.3 step 3): take the payload as text,
trim surrounding whitespace, split on the first whitespace run and take the
first token, then split that token on the first dash and take the portion
before it.  If normalization fails for any reason (the only possible failure
is that no first token exists, i.e. the trimmed payload is empty), the raw
payload text is used verbatim. -/
def specNormalize (payload : PyStr) : PyStr :=
  if (pyStrip payload).isEmpty then payload
  else ((pyStrip payload).takeWhile (fun d => !d.isWhitespace)).takeWhile
    (fun d => d != '-')

/- ### Library-style lemmas about the string model -/

lemma takeWhile_append_all_neg {p : Char → Bool} {b : PyStr}
    (hb : ∀ x ∈ b, p x = false) (a : PyStr) :
    (a ++ b).takeWhile p = a.takeWhile p := by
  induction a with
  | nil =>
    simp only [List.nil_append, List.takeWhile_nil]
    cases b with
    | nil => rfl
    | cons y ys =>
      have hy : p y = false := hb y (by simp)
      simp [List.takeWhile_cons, hy]
  | cons x xs ih =>
    simp only [List.cons_append, List.takeWhile_cons]
    cases hpx : p x
    · rfl
    · rw [ih]

lemma mem_takeWhile_pred {p : Char → Bool} :
    ∀ {l : PyStr} {x : Char}, x ∈ l.takeWhile p → p x = true := by
  intro l
  induction l with
  | nil => intro x h; simp [List.takeWhile_nil] at h
  | cons c cs ih =>
    intro x h
    cases hc : p c
    · simp [List.takeWhile_cons, hc] at h
    · rw [List.takeWhile_cons, if_pos hc] at h
      rcases List.mem_cons.mp h with h1 | h2
      · rw [h1]; exact hc
      · exact ih h2

lemma dropWhile_head_false {p : Char → Bool} :
    ∀ {l : PyStr} {c : Char} {rest : PyStr}, l.dropWhile p = c :: rest → p c = false := by
  intro l
  induction l with
  | nil => intro c rest h; simp [List.dropWhile_nil] at h
  | cons x xs ih =>
    intro c rest h
    cases hx : p x
    · rw [List.dropWhile_cons, if_neg (by simp [hx])] at h
      injection h with h1 h2
      rw [← h1]; exact hx
    · rw [List.dropWhile_cons, if_pos (by simp [hx])] at h
      exact ih h

lemma dropWhile_eq_nil_all {p : Char → Bool} :
    ∀ {l : PyStr}, l.dropWhile p = [] → ∀ x ∈ l, p x = true := by
  intro l
  induction l with
  | nil => intro _ x hx; simp at hx
  | cons c cs ih =>
    intro h x hx
    cases hc : p c
    · rw [List.dropWhile_cons, if_neg (by simp [hc])] at h
      cases h
    · rw [List.dropWhile_cons, if_pos (by simp [hc])] at h
      rcases List.mem_cons.mp hx with h1 | h2
      · rw [h1]; exact hc
      · exact ih h x h2

lemma trimRight_decomp (l : PyStr) :
    l = (l.reverse.dropWhile Char.isWhitespace).reverse ++
        (l.reverse.takeWhile Char.isWhitespace).reverse := by
  conv_lhs => rw [← l.reverse_reverse,
    ← List.takeWhile_append_dropWhile (p := Char.isWhitespace) (l := l.reverse)]
  rw [List.reverse_append]

lemma takeWhile_trimRight (l : PyStr) :
    ((l.reverse.dropWhile Char.isWhitespace).reverse).takeWhile (fun d => !d.isWhitespace)
      = l.takeWhile (fun d => !d.isWhitespace) := by
  conv_rhs => rw [trimRight_decomp l]
  rw [takeWhile_append_all_neg]
  intro x hx
  rw [List.mem_reverse] at hx
  have := mem_takeWhile_pred hx
  simp [this]

lemma splitWsAux_skip (s : PyStr) :
    splitWsAux s [] = splitWsAux (s.dropWhile Char.isWhitespace) [] := by
  induction s with
  | nil => rfl
  | cons c rest ih =>
    cases hc : c.isWhitespace
    · rw [List.dropWhile_cons, if_neg (by simp [hc])]
    · rw [List.dropWhile_cons, if_pos (by simp [hc])]
      simp only [splitWsAux, hc, if_pos rfl]
      exact ih

lemma splitWsAux_acc :
    ∀ (s cur : PyStr), cur ≠ [] →
      ∃ ts, splitWsAux s cur
        = (cur.reverse ++ s.takeWhile (fun d => !d.isWhitespace)) :: ts := by
  intro s
  induction s with
  | nil =>
    intro cur hcur
    exact ⟨[], by simp [splitWsAux, hcur]⟩
  | cons c rest ih =>
    intro cur hcur
    cases hc : c.isWhitespace
    · obtain ⟨ts, hts⟩ := ih (c :: cur) (by simp)
      refine ⟨ts, ?_⟩
      simp only [splitWsAux, hc, Bool.false_eq_true, if_false, hts]
      rw [List.takeWhile_cons, if_pos (by simp [hc])]
      simp [List.reverse_cons, List.append_assoc]
    · refine ⟨splitWsAux rest [], ?_⟩
      simp only [splitWsAux, hc, if_true, if_neg hcur]
      rw [List.takeWhile_cons, if_neg (by simp [hc])]
      simp

lemma pySplitWs_nil {s : PyStr} (h : s.dropWhile Char.isWhitespace = []) :
    pySplitWs s = [] := by
  unfold pySplitWs
  rw [splitWsAux_skip, h]
  rfl

lemma pySplitWs_cons {s : PyStr} {c : Char} {rest : PyStr}
    (h : s.dropWhile Char.isWhitespace = c :: rest) :
    ∃ ts, pySplitWs s = (c :: rest.takeWhile (fun d => !d.isWhitespace)) :: ts := by
  have hc : c.isWhitespace = false := dropWhile_head_false h
  unfold pySplitWs
  rw [splitWsAux_skip, h]
  have hstep : splitWsAux (c :: rest) [] = splitWsAux rest [c] := by
    simp [splitWsAux, hc]
  rw [hstep]
  obtain ⟨ts, hts⟩ := splitWsAux_acc rest [c] (by simp)
  rw [hts]
  exact ⟨ts, by simp⟩

lemma pySplitChar_head (sep : Char) :
    ∀ l : PyStr, ∃ ts, pySplitChar sep l = l.takeWhile (fun c => c != sep) :: ts := by
  intro l
  induction l with
  | nil => exact ⟨[], rfl⟩
  | cons c cs ih =>
    by_cases hc : c = sep
    · subst hc
      refine ⟨pySplitChar c cs, ?_⟩
      simp [pySplitChar, List.takeWhile_cons]
    · obtain ⟨ts, hts⟩ := ih
      refine ⟨ts, ?_⟩
      simp only [pySplitChar, if_neg hc, hts, List.takeWhile_cons]
      have hbne : (c != sep) = true := by simp [hc]
      rw [hbne]
      simp

lemma extract_sku_of_nil {p : PyStr} (h : pySplitWs p = []) : extract_sku p = p := by
  unfold extract_sku
  rw [h]

lemma extract_sku_of_cons {p tok : PyStr} {ts : List PyStr}
    (h : pySplitWs p = tok :: ts) :
    extract_sku p = tok.takeWhile (fun c => c != '-') := by
  obtain ⟨us, hus⟩ := pySplitChar_head '-' tok
  unfold extract_sku
  rw [h]
  simp only [hus]

lemma pyStrip_eq_nil {s : PyStr} (h : s.dropWhile Char.isWhitespace = []) :
    pyStrip s = [] := by
  unfold pyStrip
  rw [h]
  rfl

lemma pyStrip_ne_nil {s : PyStr} {c : Char} {rest : PyStr}
    (h : s.dropWhile Char.isWhitespace = c :: rest) :
    pyStrip s ≠ [] := by
  intro hcontra
  unfold pyStrip at hcontra
  rw [h] at hcontra
  have hrev : (c :: rest).reverse.dropWhile Char.isWhitespace = [] := by
    cases hrev : (c :: rest).reverse.dropWhile Char.isWhitespace with
    | nil => rfl
    | cons y ys => rw [hrev] at hcontra; simp at hcontra
  have hall := dropWhile_eq_nil_all hrev c (by rw [List.mem_reverse]; simp)
  have hfalse := dropWhile_head_false h
  rw [hall] at hfalse
  cases hfalse

/- ### Claim C1 -/

/-- C1: Identifier normalization is exactly the spec's rule: for every
payload, `extract_sku` equals the spec's trim / first-whitespace-token /
portion-before-first-dash rule (with the raw payload returned verbatim when
the rule fails, i.e. when no first token exists); `"SKU-1234 extra"` maps to
`"SKU"`, `"  plainsku  "` maps to `"plainsku"`, and a payload with no dash
and no whitespace maps to itself. -/
theorem extract_sku_matches_spec :
    (∀ p : PyStr, extract_sku p = specNormalize p) ∧
    extract_sku (pstr "SKU-1234 extra") = pstr "SKU" ∧
    extract_sku (pstr "  plainsku  ") = pstr "plainsku" ∧
    (∀ p : PyStr, (∀ c ∈ p, ¬c.isWhitespace ∧ c ≠ '-') → extract_sku p = p) := by
  refine ⟨?_, by decide, by decide, ?_⟩
  · intro p
    cases h : p.dropWhile Char.isWhitespace with
    | nil =>
      rw [extract_sku_of_nil (pySplitWs_nil h)]
      simp [specNormalize, pyStrip_eq_nil h]
    | cons c rest =>
      have hc : c.isWhitespace = false := dropWhile_head_false h
      obtain ⟨ts, hts⟩ := pySplitWs_cons h
      rw [extract_sku_of_cons hts]
      have hne : (pyStrip p).isEmpty = false := by
        cases hp : pyStrip p with
        | nil => exact absurd hp (pyStrip_ne_nil h)
        | cons y ys => rfl
      have htok : (pyStrip p).takeWhile (fun d => !d.isWhitespace)
          = c :: rest.takeWhile (fun d => !d.isWhitespace) := by
        unfold pyStrip
        rw [takeWhile_trimRight, h, List.takeWhile_cons, if_pos (by simp [hc])]
      simp only [specNormalize, hne, Bool.false_eq_true, if_false, htok]
  · intro p hp
    cases hp0 : p with
    | nil => exact extract_sku_of_nil (pySplitWs_nil (by simp [List.dropWhile_nil]))
    | cons c rest =>
      subst hp0
      have hc := hp c (by simp)
      have hdrop : (c :: rest).dropWhile Char.isWhitespace = c :: rest := by
        rw [List.dropWhile_cons, if_neg (by simp [hc.1])]
      have htake : rest.takeWhile (fun d => !d.isWhitespace) = rest := by
        rw [List.takeWhile_eq_self_iff]
        intro x hx
        have := (hp x (by simp [hx])).1
        simp [this]
      obtain ⟨ts, hts⟩ := pySplitWs_cons hdrop
      rw [htake] at hts
      rw [extract_sku_of_cons hts]
      rw [List.takeWhile_eq_self_iff]
      intro x hx
      have := (hp x hx).2
      simp [this]

/-- Witness for C1: the no-dash-no-whitespace part at a concrete payload. -/
theorem extract_sku_matches_spec_witness :
    extract_sku (pstr "abc") = pstr "abc" :=
  extract_sku_matches_spec.2.2.2 (pstr "abc") (by decide)

/- ### Filesystem model -/

/-- The filesystem fragment the pipeline touches: text files (the per-order
logs) as a finite map from path to raw content, and the set of image files
written, in write order.  Image contents are irrelevant to every claim, so
only the paths are kept.  Folders are not modelled (`os.makedirs` with
`exist_ok=True` never fails on them). -/
structure FS where
  logFiles : List (PyStr × PyStr)
  imageFiles : List PyStr
deriving DecidableEq

def fsLookup : List (PyStr × PyStr) → PyStr → Option PyStr
  | [], _ => none
  | (q, c) :: rest, p => if q = p then some c else fsLookup rest p

def fsStore : List (PyStr × PyStr) → PyStr → PyStr → List (PyStr × PyStr)
  | [], p, c => [(p, c)]
  | (q, c0) :: rest, p, c =>
    if q = p then (p, c) :: rest else (q, c0) :: fsStore rest p c

/-- `os.path.join` for the two-component joins the code performs. -/
def joinPath (a b : PyStr) : PyStr := a ++ '/' :: b

def headerLine : PyStr := pstr "Timestamp,SKU"

def logFileName : PyStr := pstr "barcode_log.csv"

def noOrderName : PyStr := pstr "NoOrder"

def noneText : PyStr := pstr "None"

/-- The order's log-file path, `<root>/<order>/barcode_log.csv`. -/
def logPath (root order : PyStr) : PyStr := joinPath (joinPath root order) logFileName

/-- The log-append step of `capture_image` (src/BarCam.py lines 540-548):
`open(log_path, "a")` (creating the file when absent), a
`"Timestamp,SKU\n"` header written only if the file did not previously
exist, then one `f"{timestamp},{sku_value}\n"` write. -/
def appendRecord (fs : FS) (log_path ts sku : PyStr) : FS :=
  let old := (fsLookup fs.logFiles log_path).getD []
  let header : PyStr :=
    if (fsLookup fs.logFiles log_path).isSome then [] else headerLine ++ ['\n']
  { fs with logFiles :=
      fsStore fs.logFiles log_path (old ++ header ++ ts ++ ',' :: sku ++ ['\n']) }

/-- File content as text lines: split on newline; a trailing newline does not
produce an extra empty row. -/
def splitLines (content : PyStr) : List PyStr :=
  let ps := pySplitChar '\n' content
  if ps.getLast? = some [] then ps.dropLast else ps

def parseRows : List PyStr → Option (List (PyStr × PyStr))
  | [] => some []
  | r :: rs =>
    match pySplitChar ',' r with
    | [a, b] =>
      match parseRows rs with
      | some ps => some ((a, b) :: ps)
      | none => none
    | _ => none

/-- A strict verbatim two-column table reader: the first line must be the
`Timestamp,SKU` header and every data row exactly two comma-separated
fields, read back as verbatim strings; anything else is `none`.  This is a
specification-side checker used to state what a well-formed log file
contains.  It is NOT a model of `pd.read_csv`: pandas' type inference, NaN
filling, implied-index handling of ragged rows and partial-success column
access are the responsibility of the `Env.pdReadCsv` oracle (see
`PyDataFrame`), not re-modelled here. -/
def readCsv (content : PyStr) : Option (List (PyStr × PyStr)) :=
  match splitLines content with
  | [] => none
  | header :: rows => if header = headerLine then parseRows rows else none

/- ### Session, environment and events -/

/-- Observable side effects dispatched to the world outside the embedded
state: dialog boxes, tones, serial bytes, handle lifecycle. -/
inductive Ev
  | msgBox
  | errorShown
  | imageWriteFailed
  | logWriteFailed
  | beep (success : Bool)
  | serialWrite (bytes : PyStr)
  | serialOpened
  | cameraOpened (idx : Nat)
  | released
  | releaseFailed
  | serialClosed
  | serialCloseFailed
deriving DecidableEq

/-- The mutable fields of `BarcodeApp` (src/BarCam.py lines 32-39) that the
capture-and-persist pipeline reads or writes.  UI label texts are not
modelled.  `capture` is the opened camera handle (its index), `serial_port`
the opened serial handle (its port name). -/
structure Session where
  capture : Option Nat
  camera_index : Option Nat
  timer_running : Bool
  last_barcode : Option PyStr
  barcode_set : List PyStr
  save_location : PyStr
  serial_port : Option PyStr
  sku_table : List (PyStr × PyStr)
deriving DecidableEq

/-- A session state together with the filesystem and the trace of dispatched
side effects. -/
structure World where
  session : Session
  fs : FS
  events : List Ev
deriving DecidableEq

/-- The result of `pd.read_csv` on a log file's content, as observed by the
code after `astype(str)`: the parsed table's column names and, per column
name, that column's cell values as strings.  pandas' type inference, NaN
filling for short rows and implied-index handling of rows with one extra
field are all behaviours of this external library and live in the
`Env.pdReadCsv` oracle that produces a `PyDataFrame`, exactly as the
OpenCV and pyserial calls are oracles. -/
structure PyDataFrame where
  cols : List PyStr
  col : PyStr → List PyStr

/-- Inputs read from widgets and the outcomes of external-library calls
(OpenCV, pyserial, pandas, `cv2.imwrite`, `open`): each fallible call is an
oracle giving that call's outcome.  `pdReadCsv` maps a log file's content
to `pd.read_csv`'s outcome: `none` when it raises (empty file, unparseable
table), `some df` when it returns a table. -/
structure Env where
  cwd : PyStr
  order_text : PyStr
  timestamp : PyStr
  serialSelection : PyStr
  comboText : PyStr
  beep_enabled : Bool
  beep_checkbox : Bool
  imwrite_ok : Bool
  logwrite_ok : Bool
  serial_write_ok : Bool
  serial_opens : Bool
  read_ok : Bool
  release_ok : Bool
  close_ok : Bool
  probeOpens : Nat → Bool
  openFallback : Nat → Bool
  pdReadCsv : PyStr → Option PyDataFrame

/-- `self.order_input.text().strip() or "NoOrder"` (src/BarCam.py line 525). -/
def orderNumber (env : Env) : PyStr :=
  if pyStrip env.order_text = [] then noOrderName else pyStrip env.order_text

/- ### Core operations -/

/-- `BarcodeApp.capture_image` (src/BarCam.py lines 518-548): fall back to
the current working directory when no save folder was chosen (with an
informational dialog), write the image `<sku>_<timestamp>.jpg` into the
order folder (a failure is printed and swallowed), play the success tone if
both beep settings allow it, then append the log record (a failure is
printed and swallowed; `logwrite_ok = false` models the append failing with
no file change). -/
def capture_image (env : Env) (w : World) (sku_value : PyStr) : World :=
  let w :=
    if w.session.save_location = [] then
      { w with session := { w.session with save_location := env.cwd },
               events := w.events ++ [Ev.msgBox] }
    else w
  let order_folder := joinPath w.session.save_location (orderNumber env)
  let filename := joinPath order_folder (sku_value ++ '_' :: env.timestamp ++ pstr ".jpg")
  let w :=
    if env.imwrite_ok then
      { w with fs := { w.fs with imageFiles := w.fs.imageFiles ++ [filename] } }
    else { w with events := w.events ++ [Ev.imageWriteFailed] }
  let w :=
    if env.beep_enabled && env.beep_checkbox then
      { w with events := w.events ++ [Ev.beep true] }
    else w
  let log_path := joinPath order_folder logFileName
  if env.logwrite_ok then
    { w with fs := appendRecord w.fs log_path env.timestamp sku_value }
  else { w with events := w.events ++ [Ev.logWriteFailed] }

/-- `BarcodeApp.capture_snapshot` (src/BarCam.py lines 550-560): only the
`if self.capture:` body runs; with no open camera the method silently does
nothing.  With a camera, a failed read shows an error, a successful read is
persisted under the sentinel identifier `"manual"`. -/
def capture_snapshot (env : Env) (w : World) : World :=
  match w.session.capture with
  | none => w
  | some _ =>
    if env.read_ok then capture_image env w (pstr "manual")
    else { w with events := w.events ++ [Ev.errorShown] }

/-- Python's `set.update`: insert each element not already present. -/
def setUpdate (s : List PyStr) (xs : List PyStr) : List PyStr :=
  xs.foldl (fun acc x => if x ∈ acc then acc else x :: acc) s

/-- `BarcodeApp.load_existing_barcodes` (src/BarCam.py lines 662-674): clear
the dedup set, then, if the order's log file exists, run the read block
under a swallow-all `try`, whose statements fail at distinct points with
their earlier effects kept: `pd.read_csv` itself may raise (the oracle's
`none` — set stays empty, table untouched); `df['SKU']` raises when that
column is absent (set stays empty, table untouched); otherwise the set is
updated from the SKU column, `setRowCount(0)` clears the table, and the
row loop populates it — `row['Timestamp']` raising on the first row when
that column is absent (table stays cleared; with zero rows the loop body
never runs, which leaves the same state). -/
def load_existing_barcodes (env : Env) (w : World) (order_number : PyStr) : World :=
  let s := { w.session with barcode_set := [] }
  let log_path := joinPath (joinPath s.save_location order_number) logFileName
  match fsLookup w.fs.logFiles log_path with
  | none => { w with session := s }
  | some content =>
    match env.pdReadCsv content with
    | none => { w with session := s }
    | some df =>
      if pstr "SKU" ∈ df.cols then
        let s := { s with barcode_set := setUpdate [] (df.col (pstr "SKU")),
                          sku_table := [] }
        if pstr "Timestamp" ∈ df.cols then
          { w with session := { s with sku_table :=
              (df.col (pstr "Timestamp")).zip (df.col (pstr "SKU")) } }
        else { w with session := s }
      else { w with session := s }

/-- The serial-forwarding block of `update_frame` (src/BarCam.py lines
478-484): if a serial port is open, write `barcode_data + '\n'` to it; a
write failure plays the failure tone when beeping is enabled. -/
def serialForward (env : Env) (w : World) (data : PyStr) : World :=
  match w.session.serial_port with
  | none => w
  | some _ =>
    if env.serial_write_ok then
      { w with events := w.events ++ [Ev.serialWrite (data ++ ['\n'])] }
    else if env.beep_enabled then
      { w with events := w.events ++ [Ev.beep false] }
    else w

/-- The per-Symbol body of the decode loop in `BarcodeApp.update_frame`
(src/BarCam.py lines 454-484): decode and strip the payload, extract the
SKU identifier, and if it is new: insert it into the dedup set, persist via
`capture_image`, record it as the last barcode, append to the display
table, and forward the payload over the serial port if one is open.  An
already-seen identifier changes nothing. -/
def processSymbol (env : Env) (w : World) (raw : PyStr) : World :=
  let data := pyStrip raw
  let sku := extract_sku data
  if sku ∈ w.session.barcode_set then w
  else
    let w1 := { w with session :=
        { w.session with barcode_set := sku :: w.session.barcode_set } }
    let w2 := capture_image env w1 sku
    let w3 := { w2 with session :=
        { w2.session with last_barcode := some data,
                          sku_table := w2.session.sku_table ++ [(env.timestamp, sku)] } }
    serialForward env w3 data

/-- One tick's worth of decoded Symbols, processed left to right (the `for
barcode in barcodes:` loop of `update_frame`). -/
def update_frame_loop (env : Env) (w : World) (barcodes : List PyStr) : World :=
  barcodes.foldl (processSymbol env) w

/-- `BarcodeApp.stop_camera` (src/BarCam.py lines 406-421): stop the timer,
release the camera handle if held and null it (release exceptions are
swallowed), close the serial handle if held and null it (close exceptions
are swallowed).  The dedup set and `last_barcode` are not touched. -/
def stop_camera (env : Env) (w : World) : World :=
  let s := { w.session with timer_running := false }
  let capEvs : List Ev :=
    if s.capture.isSome then [if env.release_ok then Ev.released else Ev.releaseFailed]
    else []
  let s := if s.capture.isSome then { s with capture := none } else s
  let serEvs : List Ev :=
    if s.serial_port.isSome then [if env.close_ok then Ev.serialClosed else Ev.serialCloseFailed]
    else []
  let s := if s.serial_port.isSome then { s with serial_port := none } else s
  { w with session := s, events := w.events ++ capEvs ++ serEvs }

/-- `BarcodeApp.detect_cameras` (src/BarCam.py lines 215-235): probe indices
0..7, collecting those whose probe opens. -/
def detect_cameras (env : Env) : List Nat :=
  (List.range 8).filter env.probeOpens

/-- `BarcodeApp._scan_and_open_any_camera` (src/BarCam.py lines 386-404):
try indices 0..7 with the backend-fallback opener, returning the first that
opens. -/
def scanAnyCamera (env : Env) : Option Nat :=
  (List.range 8).find? env.openFallback

/-- Python's `str.isdigit()` on our model (nonempty, all digits). -/
def pyIsDigit (s : PyStr) : Bool := !s.isEmpty && s.all Char.isDigit

/-- Python's `int(...)` on a digit string. -/
def pyToNat (s : PyStr) : Nat := s.foldl (fun n c => n * 10 + (c.toNat - 48)) 0

/-- The camera-acquisition phase of `start_camera` (src/BarCam.py lines
328-384), entered only after the serial phase: pick the index from the combo
text if it is numeric, otherwise the first detected camera; open it with
backend fallback (on failure scan 0..7); a total failure shows an error and
returns.  On success store the handle and the requested index, reload the
order's log into the dedup set when a save folder is set, and start the
periodic tick. -/
def startCameraDevice (env : Env) (w : World) : World :=
  let selected_text := env.comboText
  let use_index : Option Nat :=
    if pyIsDigit selected_text then some (pyToNat selected_text)
    else (detect_cameras env).head?
  let cap : Option Nat :=
    match use_index with
    | some i => if env.openFallback i then some i else scanAnyCamera env
    | none => scanAnyCamera env
  match cap with
  | none => { w with events := w.events ++ [Ev.errorShown] }
  | some i =>
    let w := { w with
      session := { w.session with capture := some i, camera_index := use_index },
      events := w.events ++ [Ev.cameraOpened i] }
    let w :=
      if w.session.save_location = [] then w
      else load_existing_barcodes env w (orderNumber env)
    { w with session := { w.session with timer_running := true } }

/-- `BarcodeApp.start_camera` (src/BarCam.py lines 315-384): if a serial
port is selected, open it first — a failure shows an error and returns
immediately with nothing else touched (the old `serial_port` attribute is
retained since the failed constructor never assigns); with no selection the
port attribute is cleared.  Only then is any camera acquisition attempted. -/
def start_camera (env : Env) (w : World) : World :=
  if env.serialSelection ≠ noneText then
    if env.serial_opens then
      startCameraDevice env
        { w with session := { w.session with serial_port := some env.serialSelection },
                 events := w.events ++ [Ev.serialOpened] }
    else { w with events := w.events ++ [Ev.errorShown] }
  else
    startCameraDevice env { w with session := { w.session with serial_port := none } }

/-- The serial bytes in an event trace, in order. -/
def serialWrites (evs : List Ev) : List PyStr :=
  evs.filterMap (fun e => match e with | Ev.serialWrite b => some b | _ => none)

/-- Content of a log file, empty when the file is absent. -/
def logContent (fs : FS) (p : PyStr) : PyStr := (fsLookup fs.logFiles p).getD []

/- ### Concrete fixtures for scenarios, witnesses and counterexamples -/

def fs0 : FS := { logFiles := [], imageFiles := [] }

/-- A fully healthy environment: order "ORD1", every external call succeeds. -/
def envOk : Env :=
  { cwd := pstr "/cwd", order_text := pstr "ORD1", timestamp := pstr "20250101-120000",
    serialSelection := pstr "None", comboText := pstr "0",
    beep_enabled := true, beep_checkbox := true,
    imwrite_ok := true, logwrite_ok := true, serial_write_ok := true,
    serial_opens := true, read_ok := true, release_ok := true, close_ok := true,
    probeOpens := fun _ => true, openFallback := fun _ => true,
    pdReadCsv := fun _ => none }

/-- Like `envOk` but the log append fails (e.g. disk full). -/
def envLogFail : Env := { envOk with logwrite_ok := false }

/-- A running session with an empty dedup set and a chosen save folder. -/
def sessionFresh : Session :=
  { capture := some 0, camera_index := some 0, timer_running := true,
    last_barcode := none, barcode_set := [], save_location := pstr "/save",
    serial_port := none, sku_table := [] }

def worldFresh : World := { session := sessionFresh, fs := fs0, events := [] }

/-- `worldFresh` with an open serial link. -/
def worldSerial : World :=
  { worldFresh with session := { sessionFresh with serial_port := some (pstr "COM3") } }

/-- A running session that has already seen identifier "A". -/
def worldSeen : World :=
  { worldFresh with session :=
      { sessionFresh with
          barcode_set := [pstr "A"]
          last_barcode := some (pstr "X")
          serial_port := some (pstr "COM3") } }

/-- A session with no open camera (not Running). -/
def worldIdle : World :=
  { worldFresh with session := { sessionFresh with capture := none, timer_running := false } }

/- ### Helper lemmas about the operations -/

lemma fsLookup_fsStore_self :
    ∀ (files : List (PyStr × PyStr)) (p c : PyStr),
      fsLookup (fsStore files p c) p = some c := by
  intro files
  induction files with
  | nil => intro p c; simp [fsStore, fsLookup]
  | cons pr rest ih =>
    intro p c
    obtain ⟨q, c0⟩ := pr
    by_cases h : q = p
    · simp [fsStore, h, fsLookup]
    · simp [fsStore, h, fsLookup, ih]

lemma fsLookup_appendRecord (fs : FS) (p ts sku : PyStr) :
    fsLookup (appendRecord fs p ts sku).logFiles p
      = some ((fsLookup fs.logFiles p).getD []
          ++ (if (fsLookup fs.logFiles p).isSome then [] else headerLine ++ ['\n'])
          ++ ts ++ ',' :: sku ++ ['\n']) := by
  unfold appendRecord
  simp [fsLookup_fsStore_self]

lemma logContent_appendRecord (fs : FS) (p ts sku : PyStr) :
    logContent (appendRecord fs p ts sku) p
      = logContent fs p
        ++ (if (fsLookup fs.logFiles p).isSome then [] else headerLine ++ ['\n'])
        ++ ts ++ ',' :: sku ++ ['\n'] := by
  unfold logContent
  rw [fsLookup_appendRecord]
  rfl

lemma capture_image_barcode_set (env : Env) (w : World) (sku : PyStr) :
    (capture_image env w sku).session.barcode_set = w.session.barcode_set := by
  simp only [capture_image]
  split_ifs <;> rfl

lemma capture_image_serial_port (env : Env) (w : World) (sku : PyStr) :
    (capture_image env w sku).session.serial_port = w.session.serial_port := by
  simp only [capture_image]
  split_ifs <;> rfl

lemma capture_image_capture (env : Env) (w : World) (sku : PyStr) :
    (capture_image env w sku).session.capture = w.session.capture := by
  simp only [capture_image]
  split_ifs <;> rfl

lemma capture_image_sku_table (env : Env) (w : World) (sku : PyStr) :
    (capture_image env w sku).session.sku_table = w.session.sku_table := by
  simp only [capture_image]
  split_ifs <;> rfl

lemma capture_image_save_of_ne (env : Env) (w : World) (sku : PyStr)
    (h : w.session.save_location ≠ []) :
    (capture_image env w sku).session.save_location = w.session.save_location := by
  simp only [capture_image, if_neg h]
  split_ifs <;> rfl

lemma capture_image_save_of_nil (env : Env) (w : World) (sku : PyStr)
    (h : w.session.save_location = []) :
    (capture_image env w sku).session.save_location = env.cwd := by
  simp only [capture_image, if_pos h]
  split_ifs <;> rfl

lemma capture_image_images_of_ne (env : Env) (w : World) (sku : PyStr)
    (himg : env.imwrite_ok = true) (h : w.session.save_location ≠ []) :
    (capture_image env w sku).fs.imageFiles
      = w.fs.imageFiles
        ++ [joinPath (joinPath w.session.save_location (orderNumber env))
              (sku ++ '_' :: env.timestamp ++ pstr ".jpg")] := by
  simp only [capture_image, if_neg h, himg, if_true]
  split_ifs <;> simp [appendRecord]

lemma capture_image_log_of_ne (env : Env) (w : World) (sku : PyStr)
    (hlog : env.logwrite_ok = true) (h : w.session.save_location ≠ []) :
    logContent (capture_image env w sku).fs
        (joinPath (joinPath w.session.save_location (orderNumber env)) logFileName)
      = logContent w.fs
          (joinPath (joinPath w.session.save_location (orderNumber env)) logFileName)
        ++ (if (fsLookup w.fs.logFiles
              (joinPath (joinPath w.session.save_location (orderNumber env)) logFileName)).isSome
            then [] else headerLine ++ ['\n'])
        ++ env.timestamp ++ ',' :: sku ++ ['\n'] := by
  simp only [capture_image, if_neg h, hlog, if_true]
  split_ifs <;> simp_all [logContent, fsLookup_appendRecord]

lemma capture_image_logFiles_of_fail (env : Env) (w : World) (sku : PyStr)
    (hlog : env.logwrite_ok = false) :
    (capture_image env w sku).fs.logFiles = w.fs.logFiles := by
  simp only [capture_image, hlog, Bool.false_eq_true, if_false]
  split_ifs <;> rfl

lemma capture_image_serialWrites (env : Env) (w : World) (sku : PyStr) :
    serialWrites (capture_image env w sku).events = serialWrites w.events := by
  simp only [capture_image]
  split_ifs <;> simp [serialWrites, List.filterMap_append]

lemma capture_image_no_error (env : Env) (w : World) (sku : PyStr) :
    (Ev.errorShown ∈ (capture_image env w sku).events) ↔ (Ev.errorShown ∈ w.events) := by
  simp only [capture_image]
  split_ifs <;> simp

lemma capture_image_beep (env : Env) (w : World) (sku : PyStr)
    (hb : env.beep_enabled = true) (hc : env.beep_checkbox = true) :
    Ev.beep true ∈ (capture_image env w sku).events := by
  simp only [capture_image, hb, hc, Bool.and_self]
  split_ifs <;> simp

lemma serialForward_session (env : Env) (w : World) (d : PyStr) :
    (serialForward env w d).session = w.session := by
  unfold serialForward
  split
  · rfl
  · split_ifs <;> rfl

lemma serialForward_fs (env : Env) (w : World) (d : PyStr) :
    (serialForward env w d).fs = w.fs := by
  unfold serialForward
  split
  · rfl
  · split_ifs <;> rfl

lemma serialForward_writes_of (env : Env) (w : World) (d : PyStr)
    (hsp : w.session.serial_port.isSome = true) (hok : env.serial_write_ok = true) :
    (serialForward env w d).events = w.events ++ [Ev.serialWrite (d ++ ['\n'])] := by
  unfold serialForward
  split
  · next heq => rw [heq] at hsp; cases hsp
  · rw [if_pos hok]

lemma serialForward_beep_mem (env : Env) (w : World) (d : PyStr) :
    ∀ e ∈ w.events, e ∈ (serialForward env w d).events := by
  intro e he
  unfold serialForward
  split
  · exact he
  · split_ifs <;> simp [he]

lemma processSymbol_of_mem {env : Env} {w : World} {raw : PyStr}
    (h : extract_sku (pyStrip raw) ∈ w.session.barcode_set) :
    processSymbol env w raw = w := by
  simp only [processSymbol, if_pos h]

lemma processSymbol_set {env : Env} {w : World} {raw : PyStr}
    (h : extract_sku (pyStrip raw) ∉ w.session.barcode_set) :
    (processSymbol env w raw).session.barcode_set
      = extract_sku (pyStrip raw) :: w.session.barcode_set := by
  simp only [processSymbol, if_neg h, serialForward_session]
  rw [capture_image_barcode_set]

lemma processSymbol_last {env : Env} {w : World} {raw : PyStr}
    (h : extract_sku (pyStrip raw) ∉ w.session.barcode_set) :
    (processSymbol env w raw).session.last_barcode = some (pyStrip raw) := by
  simp only [processSymbol, if_neg h, serialForward_session]

lemma processSymbol_table {env : Env} {w : World} {raw : PyStr}
    (h : extract_sku (pyStrip raw) ∉ w.session.barcode_set) :
    (processSymbol env w raw).session.sku_table
      = w.session.sku_table ++ [(env.timestamp, extract_sku (pyStrip raw))] := by
  simp only [processSymbol, if_neg h, serialForward_session]
  rw [capture_image_sku_table]

lemma processSymbol_images {env : Env} {w : World} {raw : PyStr}
    (h : extract_sku (pyStrip raw) ∉ w.session.barcode_set)
    (himg : env.imwrite_ok = true) (hs : w.session.save_location ≠ []) :
    (processSymbol env w raw).fs.imageFiles
      = w.fs.imageFiles
        ++ [joinPath (joinPath w.session.save_location (orderNumber env))
              (extract_sku (pyStrip raw) ++ '_' :: env.timestamp ++ pstr ".jpg")] := by
  simp only [processSymbol, if_neg h, serialForward_fs]
  rw [capture_image_images_of_ne _ _ _ himg]
  exact hs

lemma processSymbol_log {env : Env} {w : World} {raw : PyStr}
    (h : extract_sku (pyStrip raw) ∉ w.session.barcode_set)
    (hlog : env.logwrite_ok = true) (hs : w.session.save_location ≠ []) :
    logContent (processSymbol env w raw).fs
        (joinPath (joinPath w.session.save_location (orderNumber env)) logFileName)
      = logContent w.fs
          (joinPath (joinPath w.session.save_location (orderNumber env)) logFileName)
        ++ (if (fsLookup w.fs.logFiles
              (joinPath (joinPath w.session.save_location (orderNumber env)) logFileName)).isSome
            then [] else headerLine ++ ['\n'])
        ++ env.timestamp ++ ',' :: extract_sku (pyStrip raw) ++ ['\n'] := by
  simp only [processSymbol, if_neg h, serialForward_fs]
  rw [capture_image_log_of_ne _ _ _ hlog]
  exact hs

lemma processSymbol_logFiles_of_fail {env : Env} {w : World} {raw : PyStr}
    (h : extract_sku (pyStrip raw) ∉ w.session.barcode_set)
    (hlog : env.logwrite_ok = false) :
    (processSymbol env w raw).fs.logFiles = w.fs.logFiles := by
  simp only [processSymbol, if_neg h, serialForward_fs]
  rw [capture_image_logFiles_of_fail _ _ _ hlog]

lemma serialWrites_append (a b : List Ev) :
    serialWrites (a ++ b) = serialWrites a ++ serialWrites b := by
  unfold serialWrites
  rw [List.filterMap_append]

lemma processSymbol_writes {env : Env} {w : World} {raw : PyStr}
    (h : extract_sku (pyStrip raw) ∉ w.session.barcode_set)
    (hsp : w.session.serial_port.isSome = true) (hok : env.serial_write_ok = true) :
    serialWrites (processSymbol env w raw).events
      = serialWrites w.events ++ [pyStrip raw ++ ['\n']] := by
  simp only [processSymbol, if_neg h]
  rw [serialForward_writes_of, serialWrites_append]
  · simp only [capture_image_serialWrites]
    simp [serialWrites]
  · rw [capture_image_serial_port]
    exact hsp
  · exact hok

lemma processSymbol_beep {env : Env} {w : World} {raw : PyStr}
    (h : extract_sku (pyStrip raw) ∉ w.session.barcode_set)
    (hb : env.beep_enabled = true) (hc : env.beep_checkbox = true) :
    Ev.beep true ∈ (processSymbol env w raw).events := by
  simp only [processSymbol, if_neg h]
  exact serialForward_beep_mem _ _ _ _ (capture_image_beep _ _ _ hb hc)

/- ### Remaining concrete fixtures -/

/-- `envOk` with a supplied serial port whose open fails. -/
def envSerFail : Env :=
  { envOk with serialSelection := pstr "COM3", serial_opens := false }

/-- `worldFresh` with no save folder chosen yet. -/
def worldNoFolder : World :=
  { worldFresh with session := { sessionFresh with save_location := [] } }

/-- A world whose order log exists but is not readable as a table
(`envOk`'s pandas oracle maps every content to a raise). -/
def worldCorrupt : World :=
  { worldFresh with fs :=
      { logFiles := [(logPath (pstr "/save") (pstr "ORD1"), pstr "garbage\n")],
        imageFiles := [] } }

/-- The table pandas produces for the file "Foo,SKU\nt1,A\n": columns Foo
and SKU (no Timestamp), one row with SKU value "A". -/
def dfFooSku : PyDataFrame :=
  { cols := [pstr "Foo", pstr "SKU"],
    col := fun c => if c = pstr "SKU" then [pstr "A"] else [pstr "t1"] }

/-- `envOk` with the pandas oracle returning `dfFooSku` for the read. -/
def envFooSku : Env := { envOk with pdReadCsv := fun _ => some dfFooSku }

/-- A world with a nonempty display history whose order log is the
"Foo,SKU\nt1,A\n" file. -/
def worldFooSku : World :=
  { session := { sessionFresh with sku_table := [(pstr "t0", pstr "OLD")] },
    fs := { logFiles := [(logPath (pstr "/save") (pstr "ORD1"), pstr "Foo,SKU\nt1,A\n")],
            imageFiles := [] },
    events := [] }

/- ### Claim C2 -/

/-- C2: per-tick dedup/persist behaviour.  A Symbol whose Identifier is
already in the dedup set leaves the whole state unchanged (no persistence,
no side effects).  A fresh Identifier is inserted into the set, its image
file and log record are persisted into the order folder, the last-seen
identifier and display history are updated, and the success tone is
dispatched when beeping is enabled.  Concretely, a tick with two new
identifiers "A" and "B" persists both images, logs both records, leaves both
in the set, and a second identical tick changes nothing at all. -/
theorem tick_dedup_persist :
    (∀ (env : Env) (w : World) (raw : PyStr),
        extract_sku (pyStrip raw) ∈ w.session.barcode_set →
        processSymbol env w raw = w) ∧
    (∀ (env : Env) (w : World) (raw : PyStr),
        extract_sku (pyStrip raw) ∉ w.session.barcode_set →
        (processSymbol env w raw).session.barcode_set
            = extract_sku (pyStrip raw) :: w.session.barcode_set ∧
        (processSymbol env w raw).session.last_barcode = some (pyStrip raw) ∧
        (processSymbol env w raw).session.sku_table
            = w.session.sku_table ++ [(env.timestamp, extract_sku (pyStrip raw))] ∧
        (env.imwrite_ok = true → w.session.save_location ≠ [] →
          (processSymbol env w raw).fs.imageFiles
            = w.fs.imageFiles
              ++ [joinPath (joinPath w.session.save_location (orderNumber env))
                    (extract_sku (pyStrip raw) ++ '_' :: env.timestamp ++ pstr ".jpg")]) ∧
        (env.logwrite_ok = true → w.session.save_location ≠ [] →
          logContent (processSymbol env w raw).fs
              (joinPath (joinPath w.session.save_location (orderNumber env)) logFileName)
            = logContent w.fs
                (joinPath (joinPath w.session.save_location (orderNumber env)) logFileName)
              ++ (if (fsLookup w.fs.logFiles
                    (joinPath (joinPath w.session.save_location (orderNumber env))
                      logFileName)).isSome
                  then [] else headerLine ++ ['\n'])
              ++ env.timestamp ++ ',' :: extract_sku (pyStrip raw) ++ ['\n']) ∧
        (env.beep_enabled = true → env.beep_checkbox = true →
          Ev.beep true ∈ (processSymbol env w raw).events)) ∧
    (update_frame_loop envOk worldFresh [pstr "A", pstr "B"]).session.barcode_set
        = [pstr "B", pstr "A"] ∧
    readCsv (logContent (update_frame_loop envOk worldFresh [pstr "A", pstr "B"]).fs
        (logPath (pstr "/save") (pstr "ORD1")))
        = some [(pstr "20250101-120000", pstr "A"), (pstr "20250101-120000", pstr "B")] ∧
    (update_frame_loop envOk worldFresh [pstr "A", pstr "B"]).fs.imageFiles.length = 2 ∧
    update_frame_loop envOk (update_frame_loop envOk worldFresh [pstr "A", pstr "B"])
        [pstr "A", pstr "B"]
      = update_frame_loop envOk worldFresh [pstr "A", pstr "B"] := by
  refine ⟨?_, ?_, by decide, by decide, by decide, by decide⟩
  · intro env w raw h
    exact processSymbol_of_mem h
  · intro env w raw h
    exact ⟨processSymbol_set h, processSymbol_last h, processSymbol_table h,
      fun himg hs => processSymbol_images h himg hs,
      fun hlog hs => processSymbol_log h hlog hs,
      fun hb hc => processSymbol_beep h hb hc⟩

/-- Witness for C2: a fresh identifier lands in the dedup set. -/
theorem tick_dedup_persist_witness :
    (processSymbol envOk worldFresh (pstr "W1")).session.barcode_set
      = extract_sku (pyStrip (pstr "W1")) :: worldFresh.session.barcode_set :=
  (tick_dedup_persist.2.1 envOk worldFresh (pstr "W1") (by decide)).1

/- ### Claim C3 -/

/-- C3: the serial link is acquired before any camera.  If a serial port is
supplied and fails to open, `start_camera` returns at once with only an
error report: the session (camera handle, serial handle, dedup set, timer)
is exactly as before, so no Device is opened and no handle is retained.
Conversely a change of the camera handle can only happen when no serial
port was selected or the serial open succeeded. -/
theorem start_serial_before_camera :
    (∀ (env : Env) (w : World),
        env.serialSelection ≠ noneText → env.serial_opens = false →
        start_camera env w = { w with events := w.events ++ [Ev.errorShown] }) ∧
    (∀ (env : Env) (w : World),
        (start_camera env w).session.capture ≠ w.session.capture →
        env.serialSelection = noneText ∨ env.serial_opens = true) := by
  constructor
  · intro env w hsel hopen
    simp only [start_camera, if_pos hsel, hopen, Bool.false_eq_true, if_false]
  · intro env w h
    by_cases hsel : env.serialSelection = noneText
    · exact Or.inl hsel
    · cases hopen : env.serial_opens
      · exact absurd
          (by simp only [start_camera, if_pos hsel, hopen, Bool.false_eq_true, if_false]) h
      · exact Or.inr rfl

/-- Witness for C3: a failing serial open at a concrete state. -/
theorem start_serial_before_camera_witness :
    start_camera envSerFail worldIdle
      = { worldIdle with events := worldIdle.events ++ [Ev.errorShown] } :=
  start_serial_before_camera.1 envSerFail worldIdle (by decide) rfl

/- ### Claim C4 -/

/-- C4 (code bug): the log writer joins each record's fields with bare
commas, so an identifier that itself contains a comma cannot be recovered
from the file.  After one `appendRecord` of the record ("t1","A,B") on a
fresh log — a reachable record, since `extract_sku` passes commas through —
the file reads "Timestamp,SKU\nt1,A,B\n": its single data line "t1,A,B"
splits on commas into three fields, not the two fields of a
`timestamp,identifier` line, so no two-column read of this file can return
the appended record.  The code's actual reader (pandas) indeed does not: it
treats the extra field of such rows via an implied index and yields "B" as
the SKU, while the spec's round-trip claim requires replay to return
exactly the appended records. -/
theorem append_comma_identifier_unrecoverable :
    logContent (appendRecord fs0 (logPath (pstr "/r") (pstr "ord")) (pstr "t1") (pstr "A,B"))
        (logPath (pstr "/r") (pstr "ord")) = pstr "Timestamp,SKU\nt1,A,B\n" ∧
    splitLines (pstr "Timestamp,SKU\nt1,A,B\n") = [pstr "Timestamp,SKU", pstr "t1,A,B"] ∧
    pySplitChar ',' (pstr "t1,A,B") = [pstr "t1", pstr "A", pstr "B"] ∧
    pySplitChar ',' (pstr "t1,A,B") ≠ [pstr "t1", pstr "A,B"] := by
  refine ⟨by decide, by decide, by decide, by decide⟩

/- ### Claim C5 -/

/-- C5 counterexample: `stop_camera` does not clear the dedup set or the
last-seen identifier — after stopping a session that has seen "A" (and last
saw payload "X"), both survive. -/
theorem stop_camera_keeps_dedup :
    (stop_camera envOk worldSeen).session.barcode_set = [pstr "A"] ∧
    (stop_camera envOk worldSeen).session.last_barcode = some (pstr "X") := by
  refine ⟨by decide, by decide⟩

/-- C5 (amended): `stop_camera`, from any state, cancels the periodic tick,
releases the Device if held and closes the SerialLink if held (nulling
both handles), leaves the dedup set and last-seen identifier untouched
(those are cleared by `clear_session`), never raises (release/close
failures are swallowed and do not change the resulting session), and a
second consecutive call is a complete no-op. -/
theorem stop_camera_releases_and_idempotent :
    (∀ (env : Env) (w : World),
        (stop_camera env w).session.timer_running = false ∧
        (stop_camera env w).session.capture = none ∧
        (stop_camera env w).session.serial_port = none ∧
        (stop_camera env w).session.barcode_set = w.session.barcode_set ∧
        (stop_camera env w).session.last_barcode = w.session.last_barcode) ∧
    (∀ (env : Env) (w : World), stop_camera env (stop_camera env w) = stop_camera env w) ∧
    (∀ (env env2 : Env) (w : World),
        (stop_camera env w).session = (stop_camera env2 w).session) := by
  refine ⟨?_, ?_, ?_⟩
  · intro env w
    obtain ⟨⟨c, ci, tr, lb, bs, sl, sp, tab⟩, fsx, evs⟩ := w
    cases c <;> cases sp <;> simp [stop_camera]
  · intro env w
    obtain ⟨⟨c, ci, tr, lb, bs, sl, sp, tab⟩, fsx, evs⟩ := w
    cases c <;> cases sp <;> simp [stop_camera]
  · intro env env2 w
    obtain ⟨⟨c, ci, tr, lb, bs, sl, sp, tab⟩, fsx, evs⟩ := w
    cases c <;> cases sp <;> simp [stop_camera]

/- ### Claim C6 -/

/-- C6 counterexample: for the payload "SKU-1234" the Identifier (dedup key)
is "SKU", yet the bytes written to the serial link are the full payload
plus newline, not the Identifier plus newline. -/
theorem serial_forward_not_identifier :
    serialWrites (processSymbol envOk worldSerial (pstr "SKU-1234")).events
        = [pstr "SKU-1234\n"] ∧
    extract_sku (pyStrip (pstr "SKU-1234")) = pstr "SKU" ∧
    (pstr "SKU-1234\n" : PyStr) ≠ extract_sku (pyStrip (pstr "SKU-1234")) ++ ['\n'] := by
  refine ⟨by decide, by decide, by decide⟩

/-- C6 (amended): for every newly recorded scan while a SerialLink is open
(and the write succeeds), the bytes written to the serial link are exactly
the decoded, whitespace-stripped payload text followed by a newline — the
raw `barcode_data`, not the normalized Identifier; the two coincide only
when the payload has no dash and no interior whitespace. -/
theorem serial_forward_payload :
    ∀ (env : Env) (w : World) (raw : PyStr),
      extract_sku (pyStrip raw) ∉ w.session.barcode_set →
      w.session.serial_port.isSome = true →
      env.serial_write_ok = true →
      serialWrites (processSymbol env w raw).events
        = serialWrites w.events ++ [pyStrip raw ++ ['\n']] := by
  intro env w raw h hsp hok
  exact processSymbol_writes h hsp hok

/-- Witness for C6: a concrete forwarded payload. -/
theorem serial_forward_payload_witness :
    serialWrites (processSymbol envOk worldSerial (pstr "QQ")).events
      = serialWrites worldSerial.events ++ [pyStrip (pstr "QQ") ++ ['\n']] :=
  serial_forward_payload envOk worldSerial (pstr "QQ") (by decide) (by decide) rfl

/- ### Claim C7 -/

/-- C7 counterexample: `capture_snapshot` with no open camera does nothing
at all — no error is raised or shown, and no I/O happens; the claim's
"fails with a defined error" is false on the code. -/
theorem snapshot_idle_silent :
    capture_snapshot envOk worldIdle = worldIdle ∧
    Ev.errorShown ∉ (capture_snapshot envOk worldIdle).events ∧
    (capture_snapshot envOk worldIdle).fs = worldIdle.fs := by
  refine ⟨by decide, by decide, by decide⟩

/-- C7 (amended): `capture_snapshot` while not Running (no camera handle)
returns silently with no error and no I/O (the state is untouched); while
Running with a successful read it persists one out-of-band frame under the
sentinel identifier "manual" via `capture_image`, which never touches the
dedup set, so manual captures are never deduplicated. -/
theorem snapshot_requires_running :
    (∀ (env : Env) (w : World), w.session.capture = none → capture_snapshot env w = w) ∧
    (∀ (env : Env) (w : World) (i : Nat),
        w.session.capture = some i → env.read_ok = true →
        capture_snapshot env w = capture_image env w (pstr "manual") ∧
        (capture_snapshot env w).session.barcode_set = w.session.barcode_set) := by
  constructor
  · intro env w h
    unfold capture_snapshot
    rw [h]
  · intro env w i h hr
    have h1 : capture_snapshot env w = capture_image env w (pstr "manual") := by
      unfold capture_snapshot
      rw [h]
      simp [hr]
    exact ⟨h1, by rw [h1, capture_image_barcode_set]⟩

/-- Witness for C7: a Running session's snapshot is a "manual" persist. -/
theorem snapshot_requires_running_witness :
    capture_snapshot envOk worldFresh = capture_image envOk worldFresh (pstr "manual") :=
  (snapshot_requires_running.2 envOk worldFresh 0 rfl rfl).1

/- ### Claim C8 -/

/-- C8: at-most-once persistence.  A fresh Identifier is inserted into the
dedup set regardless of any later persist outcome; when the log append
fails, the log is unchanged but the already-written image file stays (no
rollback) and the identifier stays in the set (no retry).  Concretely, a
tick of two fresh identifiers under a failing log writer still processes
both symbols (the loop is not aborted), writes both images, writes no log
records, and attempts each failing append exactly once. -/
theorem persist_failure_no_retry :
    (∀ (env : Env) (w : World) (raw : PyStr),
        extract_sku (pyStrip raw) ∉ w.session.barcode_set →
        extract_sku (pyStrip raw) ∈ (processSymbol env w raw).session.barcode_set) ∧
    (∀ (env : Env) (w : World) (raw : PyStr),
        extract_sku (pyStrip raw) ∉ w.session.barcode_set →
        env.logwrite_ok = false →
        (processSymbol env w raw).fs.logFiles = w.fs.logFiles ∧
        (env.imwrite_ok = true → w.session.save_location ≠ [] →
          (processSymbol env w raw).fs.imageFiles
            = w.fs.imageFiles
              ++ [joinPath (joinPath w.session.save_location (orderNumber env))
                    (extract_sku (pyStrip raw) ++ '_' :: env.timestamp ++ pstr ".jpg")])) ∧
    (update_frame_loop envLogFail worldFresh [pstr "A", pstr "B"]).session.barcode_set
        = [pstr "B", pstr "A"] ∧
    (update_frame_loop envLogFail worldFresh [pstr "A", pstr "B"]).fs.imageFiles.length = 2 ∧
    (update_frame_loop envLogFail worldFresh [pstr "A", pstr "B"]).fs.logFiles = [] ∧
    ((update_frame_loop envLogFail worldFresh [pstr "A", pstr "B"]).events.filter
        (fun e => e == Ev.logWriteFailed)).length = 2 := by
  refine ⟨?_, ?_, by decide, by decide, by decide, by decide⟩
  · intro env w raw h
    rw [processSymbol_set h]
    exact List.mem_cons_self _ _
  · intro env w raw h hlog
    exact ⟨processSymbol_logFiles_of_fail h hlog,
      fun himg hs => processSymbol_images h himg hs⟩

/-- Witness for C8: a failed log append leaves the log untouched. -/
theorem persist_failure_no_retry_witness :
    (processSymbol envLogFail worldFresh (pstr "W2")).fs.logFiles
      = worldFresh.fs.logFiles :=
  (persist_failure_no_retry.2.1 envLogFail worldFresh (pstr "W2") (by decide) rfl).1

/- ### Claim C9 -/

/-- C9: persisting with no save folder selected does not fail or skip the
write: `capture_image` sets `save_location` to the process's working
directory (showing only an informational dialog, no error), persists the
image and the log record under that directory, and — since `save_location`
is now nonempty — every later persist in the session reuses it. -/
theorem capture_image_cwd_fallback :
    ∀ (env : Env) (w : World) (sku : PyStr),
      w.session.save_location = [] →
      (capture_image env w sku).session.save_location = env.cwd ∧
      (Ev.errorShown ∈ (capture_image env w sku).events ↔ Ev.errorShown ∈ w.events) ∧
      (env.imwrite_ok = true →
        (capture_image env w sku).fs.imageFiles
          = w.fs.imageFiles
            ++ [joinPath (joinPath env.cwd (orderNumber env))
                  (sku ++ '_' :: env.timestamp ++ pstr ".jpg")]) ∧
      (env.logwrite_ok = true →
        logContent (capture_image env w sku).fs
            (joinPath (joinPath env.cwd (orderNumber env)) logFileName)
          = logContent w.fs (joinPath (joinPath env.cwd (orderNumber env)) logFileName)
            ++ (if (fsLookup w.fs.logFiles
                  (joinPath (joinPath env.cwd (orderNumber env)) logFileName)).isSome
                then [] else headerLine ++ ['\n'])
            ++ env.timestamp ++ ',' :: sku ++ ['\n']) ∧
      (env.cwd ≠ [] → ∀ sku2,
        (capture_image env (capture_image env w sku) sku2).session.save_location = env.cwd) := by
  intro env w sku h
  refine ⟨capture_image_save_of_nil env w sku h, capture_image_no_error env w sku, ?_, ?_, ?_⟩
  · intro himg
    simp only [capture_image, if_pos h, himg, if_true]
    split_ifs <;> simp [appendRecord]
  · intro hlog
    simp only [capture_image, if_pos h, hlog, if_true]
    split_ifs <;> simp_all [logContent, fsLookup_appendRecord]
  · intro hcwd sku2
    rw [capture_image_save_of_ne]
    · exact capture_image_save_of_nil env w sku h
    · rw [capture_image_save_of_nil env w sku h]
      exact hcwd

/-- Witness for C9: the fallback at a concrete folderless state. -/
theorem capture_image_cwd_fallback_witness :
    (capture_image envOk worldNoFolder (pstr "S")).session.save_location = envOk.cwd :=
  (capture_image_cwd_fallback envOk worldNoFolder (pstr "S") rfl).1

/- ### Claim C10 -/

/-- C10 counterexample: a log whose read fails only during display-history
population is partially applied, not discarded.  On the file
"Foo,SKU\nt1,A\n" pandas returns a table with columns Foo and SKU and no
Timestamp column; `df['SKU']` then succeeds, so the set is updated to
{"A"} and the display table is cleared, and only afterwards does
`row['Timestamp']` raise inside the swallowed `try`.  The read/parse error
is swallowed, yet the set is NOT left empty and the table is NOT left
untouched. -/
theorem load_existing_partial_read_keeps_identifiers :
    (load_existing_barcodes envFooSku worldFooSku (pstr "ORD1")).session.barcode_set
        = [pstr "A"] ∧
    (load_existing_barcodes envFooSku worldFooSku (pstr "ORD1")).session.barcode_set ≠ [] ∧
    (load_existing_barcodes envFooSku worldFooSku (pstr "ORD1")).session.sku_table = [] ∧
    worldFooSku.session.sku_table ≠ [] := by
  refine ⟨by decide, by decide, by decide, by decide⟩

/-- C10 (amended): at session start, the dedup set is cleared before the
read is attempted, and if the order log exists but the read fails before
any identifiers are extracted — `pd.read_csv` itself raises, or the parsed
table has no SKU column — the error is swallowed and the set is left empty
with the display history and filesystem untouched, so previously logged
identifiers are persisted again as new.  If the read raises only during
display-history population (a SKU column is present but Timestamp is
missing), the error is still swallowed but the extracted identifiers
remain in the set and the history is left cleared. -/
theorem load_existing_read_failure :
    (∀ (env : Env) (w : World) (order content : PyStr),
        fsLookup w.fs.logFiles
            (joinPath (joinPath w.session.save_location order) logFileName) = some content →
        env.pdReadCsv content = none →
        (load_existing_barcodes env w order).session.barcode_set = [] ∧
        (load_existing_barcodes env w order).session.sku_table = w.session.sku_table ∧
        (load_existing_barcodes env w order).fs = w.fs) ∧
    (∀ (env : Env) (w : World) (order content : PyStr) (df : PyDataFrame),
        fsLookup w.fs.logFiles
            (joinPath (joinPath w.session.save_location order) logFileName) = some content →
        env.pdReadCsv content = some df →
        pstr "SKU" ∉ df.cols →
        (load_existing_barcodes env w order).session.barcode_set = [] ∧
        (load_existing_barcodes env w order).session.sku_table = w.session.sku_table ∧
        (load_existing_barcodes env w order).fs = w.fs) ∧
    (∀ (env : Env) (w : World) (order content : PyStr) (df : PyDataFrame),
        fsLookup w.fs.logFiles
            (joinPath (joinPath w.session.save_location order) logFileName) = some content →
        env.pdReadCsv content = some df →
        pstr "SKU" ∈ df.cols →
        pstr "Timestamp" ∉ df.cols →
        (load_existing_barcodes env w order).session.barcode_set
            = setUpdate [] (df.col (pstr "SKU")) ∧
        (load_existing_barcodes env w order).session.sku_table = []) ∧
    (∀ (env : Env) (w : World) (order raw content : PyStr),
        fsLookup w.fs.logFiles
            (joinPath (joinPath w.session.save_location order) logFileName) = some content →
        env.pdReadCsv content = none →
        (processSymbol env (load_existing_barcodes env w order) raw).session.barcode_set
          = [extract_sku (pyStrip raw)]) := by
  have key : ∀ (env : Env) (w : World) (order content : PyStr),
      fsLookup w.fs.logFiles
          (joinPath (joinPath w.session.save_location order) logFileName) = some content →
      env.pdReadCsv content = none →
      (load_existing_barcodes env w order).session.barcode_set = [] ∧
      (load_existing_barcodes env w order).session.sku_table = w.session.sku_table ∧
      (load_existing_barcodes env w order).fs = w.fs := by
    intro env w order content hlk hread
    simp only [load_existing_barcodes]
    rw [hlk]
    simp only [hread]
    exact ⟨trivial, trivial, trivial⟩
  refine ⟨key, ?_, ?_, ?_⟩
  · intro env w order content df hlk hread hsku
    simp only [load_existing_barcodes]
    rw [hlk]
    simp only [hread, if_neg hsku]
    exact ⟨trivial, trivial, trivial⟩
  · intro env w order content df hlk hread hsku hts
    simp only [load_existing_barcodes]
    rw [hlk]
    simp only [hread, if_pos hsku, if_neg hts]
    exact ⟨trivial, trivial⟩
  · intro env w order raw content hlk hread
    have hset := (key env w order content hlk hread).1
    have hfresh : extract_sku (pyStrip raw)
        ∉ (load_existing_barcodes env w order).session.barcode_set := by
      rw [hset]
      simp
    rw [processSymbol_set hfresh, hset]

/-- Witness for C10: a concrete raising read leaves the set empty. -/
theorem load_existing_read_failure_witness :
    (load_existing_barcodes envOk worldCorrupt (pstr "ORD1")).session.barcode_set = [] :=
  (load_existing_read_failure.1 envOk worldCorrupt (pstr "ORD1") (pstr "garbage\n")
    (by decide) rfl).1

end Barcam
